import Mathlib

/-!
Verification of the RBAC core of the node-react-rbac application:
server token service and authorization middleware, and the client
session store, route guards and navigation visibility filter.

Server routes are embedded from src/server/routes/protected.js and the
client components from src/client/src/components (RoleProtectedRoute.js,
Navigation.js) and the application route table (App.js).  The middleware
bodies (protect, authorize), the token service and the client auth
context are not part of the provided sources, so they are modelled from
the specification, as marked on each definition.
-/

namespace RBAC

/-- An identity as consumed by the core: id, name, email and a role
string drawn from the enumeration user / manager / admin. -/
structure Identity where
  id : Nat
  name : String
  email : String
  role : String
deriving DecidableEq, Repr

/-- The fixed enumeration of roles. -/
def roleEnum : List String := ["user", "manager", "admin"]

/-- Modelled from the spec: the fixed token TTL (expiresAt = issuedAt + TTL);
the token-service source is absent from src, only the spec fixes its shape. -/
def tokenTTL : Nat := 3600

/-- A decoded token: subjectId, role, issuedAt, expiresAt and a signature
value computed from the payload and the process-wide secret. -/
structure Token where
  subjectId : Nat
  role : String
  issuedAt : Nat
  expiresAt : Nat
  sig : Nat
deriving DecidableEq, Repr

/-- The verified content of a token. -/
structure Claims where
  subjectId : Nat
  role : String
  expiresAt : Nat
deriving DecidableEq, Repr

/-- Modelled from the spec: the signature over a token payload under the
process-wide signing secret (the concrete signing code is absent from src). -/
def signPayload (secret subjectId : Nat) (role : String) (issuedAt expiresAt : Nat) : Nat :=
  secret + 2 * subjectId + 3 * role.length + 5 * issuedAt + 7 * expiresAt

/-- Modelled from the spec: Token Service issue(identity) embeds subjectId,
role, issuedAt = now and expiresAt = issuedAt + fixed TTL, and signs the
payload; it always succeeds on a valid identity. -/
def issue (secret : Nat) (identity : Identity) (now : Nat) : Token :=
  ⟨identity.id, identity.role, now, now + tokenTTL,
    signPayload secret identity.id identity.role now (now + tokenTTL)⟩

/-- The failure kinds of token verification. -/
inductive VerifyFailure where
  | Malformed
  | Expired
  | InvalidSignature
deriving DecidableEq, Repr

/-- Modelled from the spec: Token Service verify is deterministic, checks
the signature against the secret, and rejects any token at or after its
exact expiry timestamp (expiry is exclusive). -/
def verify (secret : Nat) (token : Token) (now : Nat) : Except VerifyFailure Claims :=
  if token.sig ≠ signPayload secret token.subjectId token.role token.issuedAt token.expiresAt then
    .error .InvalidSignature
  else if token.expiresAt ≤ now then
    .error .Expired
  else
    .ok ⟨token.subjectId, token.role, token.expiresAt⟩

/-- A token as attached to a request: either a well-formed token value or
an undecodable string. -/
inductive RawToken where
  | wellFormed (t : Token)
  | garbage (s : String)
deriving DecidableEq, Repr

/-- Modelled from the spec: verification of the raw attached artifact; an
undecodable artifact fails as Malformed, otherwise verify decides. -/
def verifyRaw (secret : Nat) (rt : RawToken) (now : Nat) : Except VerifyFailure Claims :=
  match rt with
  | .garbage _ => .error .Malformed
  | .wellFormed t => verify secret t now

/-- An incoming call: the optionally attached token and the time at which
the server verifies it. -/
structure Request where
  token : Option RawToken
  now : Nat
deriving DecidableEq, Repr

/-- The observable failure outcomes of the middleware chain: 401 versus 403. -/
inductive AuthFailure where
  | Unauthenticated
  | Forbidden
deriving DecidableEq, Repr

/-- Modelled from the spec: the protect middleware delegates to token
verification; a missing, malformed, expired or badly signed token fails
with Unauthenticated, otherwise the claims are attached to the call. -/
def protect (secret : Nat) (req : Request) : Except AuthFailure Claims :=
  match req.token with
  | none => .error .Unauthenticated
  | some rt =>
    match verifyRaw secret rt req.now with
    | .error _ => .error .Unauthenticated
    | .ok claims => .ok claims

/-- Modelled from the spec: authorize(allowedRoles) checks the verified
role by exact set membership, failing with Forbidden when the role is
outside the allowed set; no hierarchy. -/
def authorize (allowedRoles : List String) (claims : Claims) : Except AuthFailure Claims :=
  if allowedRoles.contains claims.role then .ok claims else .error .Forbidden

/-- A protected route gated on an allowed-role list: protect runs first,
then authorize, then the handler, each layer short-circuiting on failure. -/
def gatedRoute (secret : Nat) (allowedRoles : List String) (handler : Claims → String)
    (req : Request) : Except AuthFailure String :=
  (protect secret req).bind fun claims =>
    (authorize allowedRoles claims).bind fun claims2 =>
      .ok (handler claims2)

/-- A route guarded by protect only (no role set): protect, then the handler. -/
def protectOnlyRoute (secret : Nat) (handler : Claims → String)
    (req : Request) : Except AuthFailure String :=
  (protect secret req).bind fun claims => .ok (handler claims)

/-- From src/server/routes/protected.js: GET /api/protected/user is
protect-only. -/
def userRoute (secret : Nat) (req : Request) : Except AuthFailure String :=
  protectOnlyRoute secret
    (fun _ => "User route - accessible to all authenticated users") req

/-- From src/server/routes/protected.js: GET /api/protected/manager is
protect then authorize with the literal list [manager, admin]. -/
def managerRoute (secret : Nat) (req : Request) : Except AuthFailure String :=
  gatedRoute secret ["manager", "admin"]
    (fun _ => "Manager route - accessible to managers and admins") req

/-- From src/server/routes/protected.js: GET /api/protected/admin is
protect then authorize with the literal list [admin]. -/
def adminRoute (secret : Nat) (req : Request) : Except AuthFailure String :=
  gatedRoute secret ["admin"]
    (fun _ => "Admin route - accessible only to admins") req

/-- A request carrying a freshly issued token for an identity, verified at
time t. -/
def reqFor (secret : Nat) (identity : Identity) (issuedAt t : Nat) : Request :=
  ⟨some (.wellFormed (issue secret identity issuedAt)), t⟩

/-- The client session state held by the auth context: user, persisted
token, loading flag and the derived isAuthenticated flag. -/
structure AuthState where
  user : Option Identity
  token : Option String
  loading : Bool
  isAuthenticated : Bool
deriving DecidableEq, Repr

/-- What a route guard renders for one navigation attempt: the pending
placeholder, a redirect, or the guarded content. -/
inductive GuardResult where
  | pending
  | navigateTo (path : String)
  | content (page : String)
deriving DecidableEq, Repr

/-- The optional chaining user?.role of the JS source: the role of the
session user when one is present. -/
def optRole (user : Option Identity) : Option String :=
  user.map fun u => u.role

/-- Membership test allowedRoles.includes(user?.role) of the JS source: an
absent user yields an undefined role, which no role list contains. -/
def roleIncluded (allowedRoles : List String) (r : Option String) : Bool :=
  match r with
  | none => false
  | some role => allowedRoles.contains role

/-- From src/client/src/components/RoleProtectedRoute.js: while loading
render the placeholder; then redirect to /login unless authenticated;
then redirect to /unauthorized unless allowedRoles includes the user role;
otherwise render the children. -/
def RoleProtectedRoute (children : String) (allowedRoles : List String)
    (s : AuthState) : GuardResult :=
  if s.loading then .pending
  else if !s.isAuthenticated then .navigateTo "/login"
  else if !(roleIncluded allowedRoles (optRole s.user)) then .navigateTo "/unauthorized"
  else .content children

/-- In the JS source the allowedRoles prop of RoleProtectedRoute defaults
to the empty list when the caller omits it. -/
def RoleProtectedRouteNoRoles (children : String) (s : AuthState) : GuardResult :=
  RoleProtectedRoute children [] s

/-- Modelled from the spec: ProtectedRoute (the AuthGuard), absent from
src; while loading render the placeholder, redirect to the login surface
unless authenticated, otherwise render the children. -/
def ProtectedRoute (children : String) (s : AuthState) : GuardResult :=
  if s.loading then .pending
  else if !s.isAuthenticated then .navigateTo "/login"
  else .content children

/-- Modelled from the spec: NoAuthRoute (the InverseGuard for public-only
pages), absent from src; guards defer their decision while loading, an
authenticated session is redirected to the default landing surface /home,
otherwise the children render. -/
def NoAuthRoute (children : String) (s : AuthState) : GuardResult :=
  if s.loading then .pending
  else if s.isAuthenticated then .navigateTo "/home"
  else .content children

/-- From src/client/src/components/Navigation.js: canAccess(requiredRole)
decides link visibility; no user means no access, required user is
satisfied by every authenticated user, required manager by manager or
admin, required admin by admin only, anything else by nobody. -/
def canAccess (user : Option Identity) (requiredRole : String) : Bool :=
  match user with
  | none => false
  | some u =>
    if requiredRole = "user" then true
    else if requiredRole = "manager" then u.role = "manager" || u.role = "admin"
    else if requiredRole = "admin" then u.role = "admin"
    else false

/-- The rank of a role in the ordered hierarchy user < manager < admin. -/
def roleRank (role : String) : Nat :=
  if role = "admin" then 2
  else if role = "manager" then 1
  else 0

/-- The outcome of the identity-fetch collaborator during rehydration. -/
inductive FetchOutcome where
  | success (identity : Identity)
  | unauthenticatedF
  | forbiddenF
  | networkFailure
deriving DecidableEq, Repr

/-- The persisted client storage: at most one token under the fixed key. -/
structure ClientStorage where
  storedToken : Option String
deriving DecidableEq, Repr

/-- Modelled from the spec: rehydrate() on client startup; with no
persisted token the session is unauthenticated at once; with one, the
identity fetch runs, success populates identity and token and sets
isAuthenticated, and any failure (Unauthenticated, Forbidden, network)
clears the persisted token and leaves the session unauthenticated; the
final state always has loading = false. -/
def rehydrate (persisted : Option String) (fetch : String → FetchOutcome) :
    ClientStorage × AuthState :=
  match persisted with
  | none => (⟨none⟩, ⟨none, none, false, false⟩)
  | some tok =>
    match fetch tok with
    | .success identity => (⟨some tok⟩, ⟨some identity, some tok, false, true⟩)
    | _ => (⟨none⟩, ⟨none, none, false, false⟩)

/-- A route element of the application route table: a public-only page, an
authentication-gated page, a role-gated page, or a bare redirect. -/
inductive RouteElement where
  | noAuthR (page : String)
  | protectedR (page : String)
  | roleProtectedR (roles : List String) (page : String)
  | redirectR (target : String)
deriving DecidableEq, Repr

/-- From App.js (src/unnamed/part_002): the route table; /login and
/register are public-only, /home, /user and /unauthorized are
authentication-gated, /manager and /admin are role-gated on their literal
lists, and / redirects to /home. -/
def appRoutes (path : String) : Option RouteElement :=
  if path = "/login" then some (.noAuthR "Login")
  else if path = "/register" then some (.noAuthR "Register")
  else if path = "/home" then some (.protectedR "Home")
  else if path = "/user" then some (.protectedR "UserPage")
  else if path = "/manager" then some (.roleProtectedR ["manager", "admin"] "ManagerPage")
  else if path = "/admin" then some (.roleProtectedR ["admin"] "AdminPage")
  else if path = "/unauthorized" then some (.protectedR "Unauthorized")
  else if path = "/" then some (.redirectR "/home")
  else none

/-- Rendering one route element against the current session state. -/
def renderElement (e : RouteElement) (s : AuthState) : GuardResult :=
  match e with
  | .noAuthR p => NoAuthRoute p s
  | .protectedR p => ProtectedRoute p s
  | .roleProtectedR roles p => RoleProtectedRoute p roles s
  | .redirectR target => .navigateTo target

/-- What the router renders at a path for the current session state. -/
def renderAt (s : AuthState) (path : String) : Option GuardResult :=
  (appRoutes path).map fun e => renderElement e s

/-- Following redirect decisions until a non-redirect render, with fuel;
returns the final path and what is rendered there. -/
def resolveNav (fuel : Nat) (s : AuthState) (path : String) :
    Option (String × GuardResult) :=
  match fuel with
  | 0 => none
  | fuel2 + 1 =>
    match renderAt s path with
    | some (.navigateTo p) => resolveNav fuel2 s p
    | some r => some (path, r)
    | none => none

/-- Whether a middleware-chain outcome reached the wrapped operation. -/
def reachedHandler (r : Except AuthFailure String) : Bool :=
  match r with
  | .ok _ => true
  | .error _ => false

/-- The guarded paths of the application: every route except the two
public ones, together with the bare redirect at the root. -/
def guardedPaths : List String :=
  ["/home", "/user", "/manager", "/admin", "/unauthorized", "/"]

end RBAC

namespace RBAC

/-- Verification of a freshly issued token strictly before its expiry
succeeds with the claims frozen at issuance. -/
theorem verify_issue_ok (secret : Nat) (identity : Identity) (now t : Nat)
    (h : t < now + tokenTTL) :
    verify secret (issue secret identity now) t =
      .ok ⟨identity.id, identity.role, now + tokenTTL⟩ := by
  have hlt : ¬ (now + tokenTTL ≤ t) := by omega
  simp [verify, issue, hlt]

/-- The protect middleware accepts a request carrying a freshly issued
token verified strictly before expiry. -/
theorem protect_reqFor (secret : Nat) (identity : Identity) (now t : Nat)
    (h : t < now + tokenTTL) :
    protect secret (reqFor secret identity now t) =
      .ok ⟨identity.id, identity.role, now + tokenTTL⟩ := by
  simp [protect, reqFor, verifyRaw, verify_issue_ok secret identity now t h]

/-- C2: for every valid identity and every verification time strictly
before the expiresAt of the issued token (which equals issuedAt plus the
fixed TTL), verify of issue(identity) succeeds and the returned claims
carry the subjectId and role of the identity. -/
theorem verify_issue_roundtrip (secret : Nat) (identity : Identity) (now t : Nat)
    (h : t < (issue secret identity now).expiresAt) :
    (issue secret identity now).expiresAt = (issue secret identity now).issuedAt + tokenTTL ∧
    ∃ claims, verify secret (issue secret identity now) t = .ok claims ∧
      claims.subjectId = identity.id ∧ claims.role = identity.role := by
  have h2 : t < now + tokenTTL := h
  exact ⟨rfl, ⟨identity.id, identity.role, now + tokenTTL⟩,
    verify_issue_ok secret identity now t h2, rfl, rfl⟩

/-- Witness for C2 at a concrete identity, issuance time and verification
time one tick before expiry. -/
theorem verify_issue_roundtrip_witness :
    ∃ claims, verify 7 (issue 7 ⟨5, "alice", "a.example", "manager"⟩ 100) 100 = .ok claims ∧
      claims.subjectId = 5 ∧ claims.role = "manager" :=
  (verify_issue_roundtrip 7 ⟨5, "alice", "a.example", "manager"⟩ 100 100 (by decide)).2

/-- C3: an issued token verified at or after its exact expiresAt fails
with the Expired kind and yields no claims; the boundary is exclusive. -/
theorem verify_expiry_exclusive (secret : Nat) (identity : Identity) (now t : Nat)
    (h : (issue secret identity now).expiresAt ≤ t) :
    verify secret (issue secret identity now) t = .error .Expired ∧
    ∀ claims, verify secret (issue secret identity now) t ≠ .ok claims := by
  have h2 : now + tokenTTL ≤ t := h
  have he : verify secret (issue secret identity now) t = .error .Expired := by
    simp [verify, issue, h2]
  exact ⟨he, fun claims hc => by simp [he] at hc⟩

/-- Witness for C3 exactly at the expiry boundary. -/
theorem verify_expiry_exclusive_witness :
    verify 7 (issue 7 ⟨5, "alice", "a.example", "manager"⟩ 100) (100 + tokenTTL) =
      .error .Expired :=
  (verify_expiry_exclusive 7 ⟨5, "alice", "a.example", "manager"⟩ 100 (100 + tokenTTL)
    (by decide)).1

/-- C1: on a request with a verified token of role r, a route gated on an
allowed list reaches its operation iff r is literally a member of the
list; on the manager route (manager, admin) role user is rejected, and on
the admin route (admin) roles user and manager are rejected, with no
hierarchical promotion. -/
theorem authorize_exact_membership (secret : Nat) (identity : Identity) (now t : Nat)
    (h : t < now + tokenTTL) :
    (∀ allowedRoles : List String, ∀ handler : Claims → String,
      reachedHandler (gatedRoute secret allowedRoles handler (reqFor secret identity now t)) =
        allowedRoles.contains identity.role) ∧
    (identity.role = "user" →
      managerRoute secret (reqFor secret identity now t) = .error .Forbidden) ∧
    (identity.role = "user" ∨ identity.role = "manager" →
      adminRoute secret (reqFor secret identity now t) = .error .Forbidden) ∧
    (identity.role = "manager" ∨ identity.role = "admin" →
      reachedHandler (managerRoute secret (reqFor secret identity now t)) = true) ∧
    (identity.role = "admin" →
      reachedHandler (adminRoute secret (reqFor secret identity now t)) = true) := by
  have hp := protect_reqFor secret identity now t h
  refine ⟨?_, ?_, ?_, ?_, ?_⟩
  · intro allowedRoles handler
    by_cases hc : identity.role ∈ allowedRoles
    · simp [gatedRoute, hp, authorize, hc, reachedHandler, Except.bind]
    · simp [gatedRoute, hp, authorize, hc, reachedHandler, Except.bind]
  · intro hr
    simp [managerRoute, gatedRoute, hp, authorize, hr, Except.bind]
  · rintro (hr | hr) <;>
      simp [adminRoute, gatedRoute, hp, authorize, hr, Except.bind]
  · rintro (hr | hr) <;>
      simp [managerRoute, gatedRoute, hp, authorize, hr, reachedHandler, Except.bind]
  · intro hr
    simp [adminRoute, gatedRoute, hp, authorize, hr, reachedHandler, Except.bind]

/-- Witness for C1: a user-role token strictly before expiry is rejected
by the manager route with Forbidden. -/
theorem authorize_exact_membership_witness :
    managerRoute 3 (reqFor 3 ⟨9, "bob", "b.example", "user"⟩ 0 10) = .error .Forbidden :=
  (authorize_exact_membership 3 ⟨9, "bob", "b.example", "user"⟩ 0 10 (by decide)).2.1 rfl

/-- C6: token-verification failure and role failure are distinct outcomes
of the chain protect, then authorize, then the operation: a missing,
malformed or expired token yields Unauthenticated, a verified token with a
role outside the allowed list yields Forbidden, and on either failure the
outcome is independent of the wrapped operation, which never executes. -/
theorem middleware_failure_outcomes (secret : Nat) (allowedRoles : List String)
    (handler : Claims → String) (req : Request) :
    (req.token = none → gatedRoute secret allowedRoles handler req = .error .Unauthenticated) ∧
    (∀ s, req.token = some (.garbage s) →
      gatedRoute secret allowedRoles handler req = .error .Unauthenticated) ∧
    (∀ tk, req.token = some (.wellFormed tk) → tk.expiresAt ≤ req.now →
      gatedRoute secret allowedRoles handler req = .error .Unauthenticated) ∧
    (∀ claims, protect secret req = .ok claims → allowedRoles.contains claims.role = false →
      gatedRoute secret allowedRoles handler req = .error .Forbidden) ∧
    (AuthFailure.Unauthenticated ≠ AuthFailure.Forbidden) ∧
    (∀ e, gatedRoute secret allowedRoles handler req = .error e →
      (∀ body, gatedRoute secret allowedRoles handler req ≠ .ok body) ∧
      ∀ handler2 : Claims → String,
        gatedRoute secret allowedRoles handler2 req = .error e) := by
  refine ⟨?_, ?_, ?_, ?_, by simp, ?_⟩
  · intro hn
    simp [gatedRoute, protect, hn, Except.bind]
  · intro s hs
    simp [gatedRoute, protect, hs, verifyRaw, Except.bind]
  · intro tk htk hexp
    by_cases hsig :
        tk.sig = signPayload secret tk.subjectId tk.role tk.issuedAt tk.expiresAt
    · simp [gatedRoute, protect, htk, verifyRaw, verify, hsig, hexp, Except.bind]
    · simp [gatedRoute, protect, htk, verifyRaw, verify, hsig, Except.bind]
  · intro claims hok hrole
    have hmem : ¬ claims.role ∈ allowedRoles := by
      simpa using hrole
    simp [gatedRoute, hok, authorize, hmem, Except.bind]
  · intro e he
    constructor
    · intro body hbody
      rw [he] at hbody
      exact Except.noConfusion hbody
    · intro handler2
      revert he
      unfold gatedRoute
      cases hpr : protect secret req with
      | error f => simp [Except.bind]
      | ok claims =>
        cases har : authorize allowedRoles claims with
        | error f => simp [har, Except.bind]
        | ok c2 => simp [har, Except.bind]

/-- Witness for C6 on a request with no token at all. -/
theorem middleware_failure_outcomes_witness :
    gatedRoute 0 ["admin"] (fun _ => "body") ⟨none, 0⟩ = .error .Unauthenticated :=
  (middleware_failure_outcomes 0 ["admin"] (fun _ => "body") ⟨none, 0⟩).1 rfl

/-- C4: with loading over, RoleProtectedRoute checks authentication first
and redirects to /login when unauthenticated; an authenticated session
whose user role is outside allowedRoles is redirected to /unauthorized;
and only an authenticated session whose role is in allowedRoles renders
the guarded children. -/
theorem roleGuard_decision (children : String) (allowedRoles : List String)
    (s : AuthState) (hload : s.loading = false) :
    (s.isAuthenticated = false →
      RoleProtectedRoute children allowedRoles s = .navigateTo "/login") ∧
    (∀ u, s.isAuthenticated = true → s.user = some u → ¬ u.role ∈ allowedRoles →
      RoleProtectedRoute children allowedRoles s = .navigateTo "/unauthorized") ∧
    (∀ u, s.isAuthenticated = true → s.user = some u → u.role ∈ allowedRoles →
      RoleProtectedRoute children allowedRoles s = .content children) := by
  refine ⟨?_, ?_, ?_⟩
  · intro hauth
    simp [RoleProtectedRoute, hload, hauth]
  · intro u hauth huser hrole
    simp [RoleProtectedRoute, hload, hauth, huser, optRole, roleIncluded, hrole]
  · intro u hauth huser hrole
    simp [RoleProtectedRoute, hload, hauth, huser, optRole, roleIncluded, hrole]

/-- Witness for C4: an authenticated user-role session on an admin-only
guard is redirected to /unauthorized. -/
theorem roleGuard_decision_witness :
    RoleProtectedRoute "AdminPage" ["admin"]
      ⟨some ⟨9, "bob", "b.example", "user"⟩, some "tok", false, true⟩ =
      .navigateTo "/unauthorized" :=
  (roleGuard_decision "AdminPage" ["admin"]
    ⟨some ⟨9, "bob", "b.example", "user"⟩, some "tok", false, true⟩ rfl).2.1
    ⟨9, "bob", "b.example", "user"⟩ rfl rfl (by decide)

/-- C5: every rehydration outcome other than success ends unauthenticated:
the persisted token is cleared, identity is absent, isAuthenticated is
false, loading always ends false, and an authenticated end state can only
come from a successful identity fetch. -/
theorem rehydrate_fail_closed :
    (∀ tok fetch, (∀ identity, fetch tok ≠ FetchOutcome.success identity) →
      rehydrate (some tok) fetch = (⟨none⟩, ⟨none, none, false, false⟩)) ∧
    (∀ persisted fetch, ((rehydrate persisted fetch).2).loading = false) ∧
    (∀ persisted fetch, ((rehydrate persisted fetch).2).isAuthenticated = true →
      ∃ tok identity, persisted = some tok ∧ fetch tok = FetchOutcome.success identity) := by
  refine ⟨?_, ?_, ?_⟩
  · intro tok fetch hfail
    cases hf : fetch tok with
    | success identity => exact absurd hf (hfail identity)
    | unauthenticatedF => simp [rehydrate, hf]
    | forbiddenF => simp [rehydrate, hf]
    | networkFailure => simp [rehydrate, hf]
  · intro persisted fetch
    cases persisted with
    | none => rfl
    | some tok =>
      cases hf : fetch tok <;> simp [rehydrate, hf]
  · intro persisted fetch hauth
    cases persisted with
    | none => simp [rehydrate] at hauth
    | some tok =>
      cases hf : fetch tok with
      | success identity => exact ⟨tok, identity, rfl, hf⟩
      | unauthenticatedF => simp [rehydrate, hf] at hauth
      | forbiddenF => simp [rehydrate, hf] at hauth
      | networkFailure => simp [rehydrate, hf] at hauth

/-- Witness for C5: a network failure during rehydration clears the token
and leaves the session unauthenticated with loading false. -/
theorem rehydrate_fail_closed_witness :
    rehydrate (some "tok") (fun _ => FetchOutcome.networkFailure) =
      (⟨none⟩, ⟨none, none, false, false⟩) :=
  rehydrate_fail_closed.1 "tok" (fun _ => FetchOutcome.networkFailure)
    (fun _ h => FetchOutcome.noConfusion h)

/-- C7: while loading is true every route guard renders the pending
placeholder and issues no redirect, whatever the authentication flag or
user role. -/
theorem guards_defer_while_loading (children : String) (allowedRoles : List String)
    (s : AuthState) (h : s.loading = true) :
    RoleProtectedRoute children allowedRoles s = .pending ∧
    ProtectedRoute children s = .pending ∧
    NoAuthRoute children s = .pending ∧
    (∀ p, RoleProtectedRoute children allowedRoles s ≠ .navigateTo p) ∧
    (∀ p, ProtectedRoute children s ≠ .navigateTo p) ∧
    (∀ p, NoAuthRoute children s ≠ .navigateTo p) := by
  refine ⟨by simp [RoleProtectedRoute, h], by simp [ProtectedRoute, h],
    by simp [NoAuthRoute, h], ?_, ?_, ?_⟩ <;>
    intro p <;> simp [RoleProtectedRoute, ProtectedRoute, NoAuthRoute, h]

/-- Witness for C7: a loading session that would otherwise fail both
checks still renders the placeholder under the role guard. -/
theorem guards_defer_while_loading_witness :
    RoleProtectedRoute "AdminPage" ["admin"] ⟨none, none, true, false⟩ = .pending :=
  (guards_defer_while_loading "AdminPage" ["admin"] ⟨none, none, true, false⟩ rfl).1

/-- C10: with the omitted allowedRoles prop defaulting to the empty list,
every authenticated session is redirected to /unauthorized once loading is
over, and the content branch is unreachable: deny-all, never allow-all. -/
theorem roleGuard_empty_default_denies (children : String) (s : AuthState)
    (hload : s.loading = false) (hauth : s.isAuthenticated = true) :
    RoleProtectedRouteNoRoles children s = .navigateTo "/unauthorized" ∧
    (∀ page, RoleProtectedRoute children [] s ≠ .content page) := by
  have hden : RoleProtectedRoute children [] s = .navigateTo "/unauthorized" := by
    cases hu : s.user with
    | none => simp [RoleProtectedRoute, hload, hauth, hu, optRole, roleIncluded]
    | some u => simp [RoleProtectedRoute, hload, hauth, hu, optRole, roleIncluded]
  exact ⟨hden, fun page hc => by simp [RoleProtectedRouteNoRoles, hden] at hc⟩

/-- Witness for C10: an authenticated admin is still denied by the
default empty allowed-role list. -/
theorem roleGuard_empty_default_denies_witness :
    RoleProtectedRouteNoRoles "Page"
      ⟨some ⟨1, "root", "r.example", "admin"⟩, some "tok", false, true⟩ =
      .navigateTo "/unauthorized" :=
  (roleGuard_empty_default_denies "Page"
    ⟨some ⟨1, "root", "r.example", "admin"⟩, some "tok", false, true⟩ rfl rfl).1

/-- C8: canAccess implements the ordered hierarchy user < manager < admin:
required user is satisfied by every authenticated user, required manager
exactly by manager and admin, required admin exactly by admin, so within
the enumeration a higher role satisfies every lower requirement; and this
diverges from the exact-set middleware, which rejects an admin claim
against the literal list [manager]. -/
theorem canAccess_hierarchy (u : Identity) :
    (canAccess (some u) "user" = true) ∧
    (canAccess (some u) "manager" = true ↔ u.role = "manager" ∨ u.role = "admin") ∧
    (canAccess (some u) "admin" = true ↔ u.role = "admin") ∧
    (u.role ∈ roleEnum → ∀ required, required ∈ roleEnum →
      (canAccess (some u) required = true ↔ roleRank required ≤ roleRank u.role)) ∧
    (canAccess (some ⟨0, "root", "r.example", "admin"⟩) "manager" = true ∧
      authorize ["manager"] ⟨0, "admin", 0⟩ = .error .Forbidden) := by
  refine ⟨by simp [canAccess], ?_, ?_, ?_, by decide, by simp [authorize]⟩
  · simp [canAccess]
  · simp [canAccess]
  · intro hu required hreq
    simp only [roleEnum, List.mem_cons, List.not_mem_nil, or_false] at hu hreq
    rcases hu with hu | hu | hu <;> rcases hreq with hreq | hreq | hreq <;>
      simp [canAccess, roleRank, hu, hreq]

/-- Witness for C8: an admin satisfies the manager-level requirement in
the navigation filter. -/
theorem canAccess_hierarchy_witness :
    canAccess (some ⟨1, "root", "r.example", "admin"⟩) "manager" = true :=
  ((canAccess_hierarchy ⟨1, "root", "r.example", "admin"⟩).2.1).2 (Or.inr rfl)

/-- C9: every route of the table except /login and /register is an
authentication- or role-gated element (the root being a bare redirect to
the gated /home), and for every unauthenticated session with loading over,
navigation to any guarded path renders no content directly and resolves,
following redirects, to the login surface. -/
theorem unauthenticated_routes_redirect_login (s : AuthState)
    (hload : s.loading = false) (hauth : s.isAuthenticated = false) :
    (∀ path, path ∈ guardedPaths →
      resolveNav 3 s path = some ("/login", .content "Login")) ∧
    (∀ path, path ∈ guardedPaths → ∀ page, renderAt s path ≠ some (.content page)) ∧
    (∀ path e, appRoutes path = some e → path ≠ "/login" → path ≠ "/register" →
      path ≠ "/" →
      (∃ p, e = .protectedR p) ∨ ∃ roles p, e = .roleProtectedR roles p) ∧
    appRoutes "/" = some (.redirectR "/home") := by
  refine ⟨?_, ?_, ?_, rfl⟩
  · intro path hp
    simp only [guardedPaths, List.mem_cons, List.not_mem_nil, or_false] at hp
    rcases hp with h | h | h | h | h | h <;> subst h <;>
      simp [resolveNav, renderAt, appRoutes, renderElement, ProtectedRoute,
        RoleProtectedRoute, NoAuthRoute, hload, hauth]
  · intro path hp page
    simp only [guardedPaths, List.mem_cons, List.not_mem_nil, or_false] at hp
    rcases hp with h | h | h | h | h | h <;> subst h <;>
      simp [renderAt, appRoutes, renderElement, ProtectedRoute,
        RoleProtectedRoute, NoAuthRoute, hload, hauth]
  · intro path e he hlogin hreg hroot
    unfold appRoutes at he
    rw [if_neg hlogin, if_neg hreg] at he
    by_cases h3 : path = "/home"
    · rw [if_pos h3] at he
      exact Or.inl ⟨"Home", (Option.some_inj.mp he).symm⟩
    rw [if_neg h3] at he
    by_cases h4 : path = "/user"
    · rw [if_pos h4] at he
      exact Or.inl ⟨"UserPage", (Option.some_inj.mp he).symm⟩
    rw [if_neg h4] at he
    by_cases h5 : path = "/manager"
    · rw [if_pos h5] at he
      exact Or.inr ⟨["manager", "admin"], "ManagerPage", (Option.some_inj.mp he).symm⟩
    rw [if_neg h5] at he
    by_cases h6 : path = "/admin"
    · rw [if_pos h6] at he
      exact Or.inr ⟨["admin"], "AdminPage", (Option.some_inj.mp he).symm⟩
    rw [if_neg h6] at he
    by_cases h7 : path = "/unauthorized"
    · rw [if_pos h7] at he
      exact Or.inl ⟨"Unauthorized", (Option.some_inj.mp he).symm⟩
    rw [if_neg h7, if_neg hroot] at he
    exact Option.noConfusion he

/-- Witness for C9: an unauthenticated idle session navigating to /admin
resolves to the login surface. -/
theorem unauthenticated_routes_redirect_login_witness :
    resolveNav 3 ⟨none, none, false, false⟩ "/admin" =
      some ("/login", .content "Login") :=
  (unauthenticated_routes_redirect_login ⟨none, none, false, false⟩ rfl rfl).1
    "/admin" (by decide)

end RBAC
